import Mathlib

/-!
Verification of the MCP-server-for-Apache-OFBiz gateway core against its
natural-language specification.

This file shallowly embeds the parts of the TypeScript source that the
claims are about: the session registry (`SessionManager`), the JWT
credential validator (`validateAccessToken`), the OAuth token exchanger
(`performTokenExchange`), the configuration validator (`validateConfig`) and
derivation (`deriveConfig`), and the MCP request dispatcher
(`createMcpRequestHandler`, embedded as `handleMcpPost`).

Conventions of the embedding:
- JavaScript `string | undefined | null` values become `Option String`;
  JavaScript truthiness (where both the missing value and the empty string
  are falsy) is `strTruthy`.
- The JavaScript `Map` backing the session registry becomes an association
  list with `Map`-style get/set/delete semantics.
- External network effects (JWKS key fetch, `jwt.verify`, OAuth discovery,
  grant requests) are modelled by explicit outcome parameters: each embedded
  function is a pure function of the source code's control flow over those
  outcomes.  Thrown exceptions become `Except` errors or explicit error
  outcomes; `async`/`await` sequencing under the single-threaded
  cooperative model becomes ordinary sequencing.
-/

/-- JavaScript truthiness of an optional string: `undefined`/`null` and the
empty string are falsy, every other string is truthy. -/
def strTruthy : Option String → Bool
  | none => false
  | some s => !(s == "")

/-- `Map.get` semantics on an association list: the first binding for the key
wins (a real JS `Map` has at most one). -/
def mapGet (m : List (String × α)) (k : String) : Option α :=
  match m with
  | [] => none
  | (k1, v1) :: rest => if k1 == k then some v1 else mapGet rest k

/-- `Map.set` semantics: replace the binding in place when the key is
present, append a new binding otherwise. -/
def mapSet (m : List (String × α)) (k : String) (v : α) : List (String × α) :=
  match m with
  | [] => [(k, v)]
  | (k1, v1) :: rest => if k1 == k then (k, v) :: rest else (k1, v1) :: mapSet rest k v

/-- `Map.delete` semantics: remove the binding for the key. -/
def mapDelete (m : List (String × α)) (k : String) : List (String × α) :=
  match m with
  | [] => []
  | (k1, v1) :: rest => if k1 == k then mapDelete rest k else (k1, v1) :: mapDelete rest k

/-- One entry of the session registry (`SessionEntry` in
`session-manager.ts`): the owned transport and the nullable cached
downstream token.  The transport type is kept abstract as `τ`. -/
structure SessionEntry (τ : Type) where
  transport : τ
  downstreamToken : Option String
deriving Repr, DecidableEq

/-- The session registry (`SessionManager` in `session-manager.ts`): a
`Map` from session identifier to entry. -/
structure SessionManager (τ : Type) where
  sessions : List (String × SessionEntry τ)
deriving Repr, DecidableEq

namespace SessionManager

variable {τ : Type}

/-- `getTransport(sessionId)`: `this.sessions.get(sessionId)?.transport`. -/
def getTransport (m : SessionManager τ) (sessionId : String) : Option τ :=
  (mapGet m.sessions sessionId).map (fun e => e.transport)

/-- `getDownstreamToken(sessionId)`: `null` when the entry is absent,
otherwise the entry's `downstreamToken`. -/
def getDownstreamToken (m : SessionManager τ) (sessionId : String) : Option String :=
  match mapGet m.sessions sessionId with
  | none => none
  | some e => e.downstreamToken

/-- `addSession(sessionId, transport)`: stores a fresh entry with a `null`
downstream token. -/
def addSession (m : SessionManager τ) (sessionId : String) (t : τ) : SessionManager τ :=
  ⟨mapSet m.sessions sessionId ⟨t, none⟩⟩

/-- `deleteSession(sessionId?)`: `if (!sessionId) return;` — a falsy
identifier (absent or empty string) makes the call a no-op. -/
def deleteSession (m : SessionManager τ) (sessionId : Option String) : SessionManager τ :=
  match sessionId with
  | none => m
  | some sid => if sid == "" then m else ⟨mapDelete m.sessions sid⟩

/-- `setDownstreamToken(sessionId, downstreamToken)`: `if (!entry) return;`
— a silent no-op on an unknown identifier, otherwise an in-place update of
the entry's token. -/
def setDownstreamToken (m : SessionManager τ) (sessionId : String) (tok : String) :
    SessionManager τ :=
  match mapGet m.sessions sessionId with
  | none => m
  | some e => ⟨mapSet m.sessions sessionId ⟨e.transport, some tok⟩⟩

/-- `hasSession(sessionId)`. -/
def hasSession (m : SessionManager τ) (sessionId : String) : Bool :=
  (mapGet m.sessions sessionId).isSome

/-- `getSessionCount()`. -/
def getSessionCount (m : SessionManager τ) : Nat :=
  m.sessions.length

/-- `clear()`. -/
def clear (_m : SessionManager τ) : SessionManager τ :=
  ⟨[]⟩

/-- The registry in its initial state (`new SessionManager()`). -/
def empty : SessionManager τ :=
  ⟨[]⟩

end SessionManager

/-- A JWT `aud` claim: a single string or an array of strings. -/
inductive AudValue
  | one : String → AudValue
  | many : List String → AudValue
deriving Repr, DecidableEq

/-- The decoded JWT payload fields that `validateAccessToken` reads. -/
structure JwtPayload where
  client_id : Option String
  scope : Option String
  sub : Option String
  aud : Option AudValue
deriving Repr, DecidableEq

/-- `JwtValidationResult` from `jwt.ts`: `{ valid: false }` carries no
further fields, so every other field defaults to absent. -/
structure JwtValidationResult where
  valid : Bool
  clientId : Option String := none
  scopes : Option (List String) := none
  userId : Option String := none
  audience : Option AudValue := none
  subjectToken : Option String := none
deriving Repr, DecidableEq

/-- Outcome of the `jwt.verify` callback for a given token and algorithm:
either an error (covering key-fetch failures surfaced by the key getter,
signature mismatch, expiry, and wrong issuer or audience) or the decoded
payload. -/
inductive VerifyOutcome
  | err : String → VerifyOutcome
  | ok : JwtPayload → VerifyOutcome
deriving Repr, DecidableEq

/-- The external behaviour `validateAccessToken` runs against:
`decodeAlg token` is the `alg` found in the token header by `jwt.decode`
(`none` when the token is structurally invalid or the header lacks `alg`),
and `verify token alg` is the outcome of `jwt.verify` with the configured
audience and issuer options. -/
structure JwtEnv where
  decodeAlg : String → Option String
  verify : String → String → VerifyOutcome

/-- Shallow embedding of `validateAccessToken` from `jwt.ts`: decode the
header for the algorithm, reject when it is missing, verify, and map any
rejection — the whole body sits in a `try`/`catch` whose `catch` returns
`{ valid: false }`, so the function is total and never throws. -/
def validateAccessToken (env : JwtEnv) (token : String) : JwtValidationResult :=
  match env.decodeAlg token with
  | none => { valid := false }
  | some alg =>
    match env.verify token alg with
    | .err _ => { valid := false }
    | .ok payload =>
      { valid := true
        clientId := payload.client_id
        scopes := payload.scope.map (fun s => s.splitOn " ")
        userId := payload.sub
        audience := payload.aud
        subjectToken := some token }

/-- Shallow embedding of `createKeyGetter` from `jwt.ts`: a missing `kid`
yields an error to the verify callback, otherwise the signing key is fetched
and its fetch error propagated. -/
def createKeyGetter (getSigningKey : String → Except String String) :
    Option String → Except String String :=
  fun kid =>
    match kid with
    | none => .error "Missing kid in token header"
    | some k =>
      match getSigningKey k with
      | .error e => .error e
      | .ok key => .ok key

/-- Outcome of `getOAuthServerConfiguration`: the discovery either yields a
usable configuration or throws. -/
inductive DiscoveryOutcome
  | ok
  | err
deriving Repr, DecidableEq

/-- Outcome of `oidc_client.genericGrantRequest`: the grant request either
throws or yields a response whose `access_token` field may be absent. -/
inductive GrantOutcome
  | err
  | response (access_token : Option String)
deriving Repr, DecidableEq

/-- The external behaviour `performTokenExchange` runs against. -/
structure ExchangeEnv where
  discovery : DiscoveryOutcome
  grant : GrantOutcome
deriving Repr, DecidableEq

/-- Shallow embedding of `performTokenExchange` from `oauth.ts`: discovery,
then the RFC 8693 grant request, then the `if (!response?.access_token)`
null-return; the surrounding `try`/`catch` converts every thrown error to
`null`, so the function is total and never throws.  Note that the JS falsy
test makes an empty-string `access_token` count as absent. -/
def performTokenExchange (env : ExchangeEnv) (subjectToken : String) : Option String :=
  match env.discovery with
  | .err => none
  | .ok =>
    match env.grant with
    | .err => none
    | .response tok => if strTruthy tok then tok else none

/-- The configuration document (`ServerConfig` from `config/types.ts`),
restricted to the fields read by `validateConfig` and `deriveConfig`; every
field may be absent in the parsed JSON. -/
structure ServerConfig where
  BACKEND_API_BASE : Option String := none
  BACKEND_ACCESS_TOKEN : Option String := none
  SERVER_PORT : Option Int := none
  MCP_SERVER_BASE_URL : Option String := none
  AUTHZ_SERVER_BASE_URL : Option String := none
  MCP_SERVER_CLIENT_ID : Option String := none
  MCP_SERVER_CLIENT_SECRET : Option String := none
  TLS_KEY_PATH : Option String := none
  TLS_CERT_PATH : Option String := none
  RATE_LIMIT_WINDOW_MS : Option Int := none
  RATE_LIMIT_MAX_REQUESTS : Option Int := none
  MCP_SERVER_DNS_REBINDING_PROTECTION_ALLOWED_HOSTS : Option (List String) := none
  MCP_SERVER_DNS_REBINDING_PROTECTION_ALLOWED_ORIGINS : Option (List String) := none
  TOKEN_EXCHANGE_SCOPE : Option (List String) := none
deriving Repr, DecidableEq

/-- Shallow embedding of `validateConfig` from `config/validator.ts`; a
thrown `ConfigValidationError` becomes `.error` with its message.  The
checks run in source order: required fields, port range, the OAuth pair,
the TLS pair. -/
def validateConfig (c : ServerConfig) : Except String Unit :=
  if !strTruthy c.BACKEND_API_BASE then
    .error "BACKEND_API_BASE is required in configuration"
  else
    match c.SERVER_PORT with
    | none => .error "SERVER_PORT is required in configuration"
    | some port =>
      if port < 1 || port > 65535 then
        .error "SERVER_PORT must be between 1 and 65535"
      else if (strTruthy c.MCP_SERVER_BASE_URL || strTruthy c.AUTHZ_SERVER_BASE_URL)
              && !strTruthy c.MCP_SERVER_BASE_URL then
        .error "MCP_SERVER_BASE_URL is required when authentication is enabled"
      else if (strTruthy c.MCP_SERVER_BASE_URL || strTruthy c.AUTHZ_SERVER_BASE_URL)
              && !strTruthy c.AUTHZ_SERVER_BASE_URL then
        .error "AUTHZ_SERVER_BASE_URL is required when authentication is enabled"
      else if (strTruthy c.TLS_KEY_PATH || strTruthy c.TLS_CERT_PATH)
              && !strTruthy c.TLS_KEY_PATH then
        .error "TLS_KEY_PATH is required when TLS is enabled"
      else if (strTruthy c.TLS_KEY_PATH || strTruthy c.TLS_CERT_PATH)
              && !strTruthy c.TLS_CERT_PATH then
        .error "TLS_CERT_PATH is required when TLS is enabled"
      else
        .ok ()

/-- JavaScript `x || d` on an optional number: the missing value and `0` are
falsy. -/
def jsNumOr (x : Option Int) (d : Int) : Int :=
  match x with
  | none => d
  | some n => if n == 0 then d else n

/-- `DerivedConfig` from `config/types.ts`. -/
structure DerivedConfig where
  enableAuth : Bool
  enableTokenExchange : Bool
  enableHttps : Bool
  rateLimitWindowMs : Int
  rateLimitMaxRequests : Int
  dnsRebindingProtectionAllowedHosts : List String
  dnsRebindingProtectionAllowedOrigins : List String
  tokenExchangeScope : List String
deriving Repr, DecidableEq

/-- Shallow embedding of `deriveConfig` from `config/loader.ts`: each
feature flag is the conjunction of the truthiness of its field pair, and the
remaining values use the JS `||` defaults (an array, being an object, is
truthy even when empty, so list fields only default when absent). -/
def deriveConfig (c : ServerConfig) : DerivedConfig :=
  { enableAuth := strTruthy c.MCP_SERVER_BASE_URL && strTruthy c.AUTHZ_SERVER_BASE_URL
    enableTokenExchange :=
      strTruthy c.MCP_SERVER_CLIENT_ID && strTruthy c.MCP_SERVER_CLIENT_SECRET
    enableHttps := strTruthy c.TLS_KEY_PATH && strTruthy c.TLS_CERT_PATH
    rateLimitWindowMs := jsNumOr c.RATE_LIMIT_WINDOW_MS 60000
    rateLimitMaxRequests := jsNumOr c.RATE_LIMIT_MAX_REQUESTS 100
    dnsRebindingProtectionAllowedHosts :=
      c.MCP_SERVER_DNS_REBINDING_PROTECTION_ALLOWED_HOSTS.getD []
    dnsRebindingProtectionAllowedOrigins :=
      c.MCP_SERVER_DNS_REBINDING_PROTECTION_ALLOWED_ORIGINS.getD []
    tokenExchangeScope := c.TOKEN_EXCHANGE_SCOPE.getD [] }

/-- `ValidationResult` from `middleware.ts`: the validator's result plus the
nullable `downstreamToken` slot the dispatcher fills in. -/
structure ValidationResult extends JwtValidationResult where
  downstreamToken : Option String := none
deriving Repr, DecidableEq

/-- An inbound `POST /mcp` request as the dispatcher sees it: the
`mcp-session-id` header, whether `isInitializeRequest(req.body)` holds, and
the auth context the middleware may have attached. -/
structure McpRequest where
  sessionId : Option String
  isInit : Bool
  auth : Option ValidationResult
deriving Repr, DecidableEq

/-- The dispatcher's collaborators (`McpRequestHandlerConfig` from
`request-handler.ts`): the optional injected exchange function is modelled
by the value it resolves to per subject token, and
`getBackendAccessToken()` by the value the fresh configuration read yields
for this call. -/
structure HandlerConfig where
  enableAuth : Bool
  performTokenExchange : Option (String → Option String)
  hasTokenExchangeConfig : Bool
  getBackendAccessToken : Option String

/-- The JSON-RPC error envelope the dispatcher sends on a bad request. -/
structure JsonRpcErrorBody where
  jsonrpc : String
  code : Int
  message : String
  idIsNull : Bool
deriving Repr, DecidableEq

/-- What the dispatcher does with the HTTP response: answer directly with a
JSON error envelope, or delegate to `transport.handleRequest` of the given
transport (transports are identified by numeric handles). -/
inductive HttpResponse
  | jsonError (status : Nat) (body : JsonRpcErrorBody)
  | delegated (transport : Nat)
deriving Repr, DecidableEq

/-- Observable outcome of one dispatcher invocation: the response action,
the registry when control passes to the transport, the request's auth
context at that point, whether the injected exchange function was invoked,
and the transport allocated by the new-session path, if any. -/
structure HandlerOutcome where
  response : HttpResponse
  sm : SessionManager Nat
  auth : Option ValidationResult
  exchangeCalled : Bool
  createdTransport : Option Nat
deriving DecidableEq

/-- The `mcp-session-id` header as the handler's truthiness tests see it:
an empty-string header is falsy, hence indistinguishable from an absent
one. -/
def jsSid (sessionId : Option String) : Option String :=
  match sessionId with
  | none => none
  | some s => if s == "" then none else some s

/-- Lines 104-106 of `request-handler.ts`:
`if (!authReq.auth) authReq.auth = { valid: !config.enableAuth, downstreamToken: null }`. -/
def ensureAuth (enableAuth : Bool) (auth : Option ValidationResult) : ValidationResult :=
  match auth with
  | some a => a
  | none => { valid := !enableAuth, downstreamToken := none }

/-- The downstream-token preparation block of `createMcpRequestHandler`
(`request-handler.ts` lines 101-135) as a pure state transformer: it yields
the auth context after the block, the registry after it, and whether the
injected `performTokenExchange` was invoked.  The block only runs its
lookup/exchange/fallback logic when the request carried a truthy session
identifier and the (possibly synthesized) auth context is valid. -/
def resolveDownstream (cfg : HandlerConfig) (sessionId : Option String)
    (auth0 : Option ValidationResult) (sm : SessionManager Nat) :
    ValidationResult × SessionManager Nat × Bool :=
  let auth := ensureAuth cfg.enableAuth auth0
  match jsSid sessionId with
  | none => (auth, sm, false)
  | some sid =>
    if !auth.valid then (auth, sm, false)
    else
      let cached := sm.getDownstreamToken sid
      if strTruthy cached then
        -- cache hit: the refill block is skipped and the cached value is
        -- attached by the final `if (downstreamToken)` assignment
        ({ auth with downstreamToken := cached }, sm, false)
      else
        -- `if (!downstreamToken)`: attempt the exchange when enabled and a
        -- subject token is available, then cache on success or fall back
        let step :=
          if cfg.enableAuth && auth.valid && cfg.hasTokenExchangeConfig then
            match cfg.performTokenExchange, auth.subjectToken with
            | some f, some subj =>
              if subj == "" then (cached, false) else (f subj, true)
            | _, _ => (cached, false)
          else (cached, false)
        let dt1 := step.1
        let called := step.2
        if strTruthy dt1 then
          ({ auth with downstreamToken := dt1 },
           sm.setDownstreamToken sid (dt1.getD ""), called)
        else
          let dt2 :=
            match cfg.getBackendAccessToken with
            | some st => if st == "" then dt1 else some st
            | none => dt1
          if strTruthy dt2 then ({ auth with downstreamToken := dt2 }, sm, called)
          else (auth, sm, called)

/-- Outcome of `loadTools` during the new-session path: success, or a load
error which `registerTools` re-throws (fail-fast). -/
inductive ToolLoadOutcome
  | ok
  | err (msg : String)
deriving Repr, DecidableEq

/-- Shallow embedding of the handler returned by `createMcpRequestHandler`
(`request-handler.ts` lines 35-141), covering the invocation up to the
point control is handed to `transport.handleRequest`.  `freshTransport`
stands for the transport instance a new-session path would allocate; the
session registration performed later by that transport's
`onsessioninitialized` callback (during delegation) is `addSession`, and
its `onclose` cleanup is `deleteSession`.  A tool-loading failure
propagates as the handler's own failure. -/
def handleMcpPost (cfg : HandlerConfig) (freshTransport : Nat)
    (toolLoad : ToolLoadOutcome) (req : McpRequest) (sm : SessionManager Nat) :
    Except String HandlerOutcome :=
  let sid := jsSid req.sessionId
  let existing :=
    match sid with
    | some s => sm.getTransport s
    | none => none
  match existing with
  | some t =>
    -- state 1: reuse the registered transport, then prepare the token
    let r := resolveDownstream cfg req.sessionId req.auth sm
    .ok { response := .delegated t, sm := r.2.1, auth := some r.1
          exchangeCalled := r.2.2, createdTransport := none }
  | none =>
    if sid.isNone && req.isInit then
      -- state 2: allocate a transport, load and register tools, connect,
      -- then prepare the token (the session id is still absent here)
      match toolLoad with
      | .err e => .error e
      | .ok =>
        let r := resolveDownstream cfg req.sessionId req.auth sm
        .ok { response := .delegated freshTransport, sm := r.2.1, auth := some r.1
              exchangeCalled := r.2.2, createdTransport := some freshTransport }
    else
      -- invalid: terminal 400 response, before any session or auth handling
      .ok { response := .jsonError 400
              { jsonrpc := "2.0", code := -32000
                message := "Bad Request: No valid session ID provided", idIsNull := true }
            sm := sm, auth := req.auth, exchangeCalled := false
            createdTransport := none }

/-! Auxiliary lemmas about the `Map` semantics of the association list. -/

theorem mapGet_mapSet_self (m : List (String × α)) (k : String) (v : α) :
    mapGet (mapSet m k v) k = some v := by
  induction m with
  | nil => simp [mapGet, mapSet]
  | cons p rest ih =>
    obtain ⟨k1, v1⟩ := p
    by_cases h : k1 == k
    · simp [mapSet, h, mapGet]
    · simp [mapSet, h, mapGet, ih]

theorem mapGet_mapSet_ne (m : List (String × α)) (k k2 : String) (v : α)
    (h : k ≠ k2) : mapGet (mapSet m k v) k2 = mapGet m k2 := by
  induction m with
  | nil => simp [mapGet, mapSet, h]
  | cons p rest ih =>
    obtain ⟨k1, v1⟩ := p
    by_cases h1 : k1 == k
    · have hk1 : k1 = k := by simpa using h1
      simp [mapSet, h1, mapGet, h, hk1]
    · simp [mapSet, h1, mapGet, ih]

theorem mapGet_mapDelete_self (m : List (String × α)) (k : String) :
    mapGet (mapDelete m k) k = none := by
  induction m with
  | nil => simp [mapDelete, mapGet]
  | cons p rest ih =>
    obtain ⟨k1, v1⟩ := p
    by_cases h : k1 == k
    · simp [mapDelete, h, ih]
    · simp [mapDelete, h, mapGet, ih]

theorem mapDelete_of_get_none (m : List (String × α)) (k : String)
    (h : mapGet m k = none) : mapDelete m k = m := by
  induction m with
  | nil => rfl
  | cons p rest ih =>
    obtain ⟨k1, v1⟩ := p
    by_cases h1 : k1 == k
    · simp [mapGet, h1] at h
    · simp [mapGet, h1] at h
      simp [mapDelete, h1, ih h]

theorem mapSet_length_of_get_some (m : List (String × α)) (k : String) (v e : α)
    (h : mapGet m k = some e) : (mapSet m k v).length = m.length := by
  induction m with
  | nil => simp [mapGet] at h
  | cons p rest ih =>
    obtain ⟨k1, v1⟩ := p
    by_cases h1 : k1 == k
    · simp [mapSet, h1]
    · simp [mapGet, h1] at h
      simp [mapSet, h1, ih h]

/-! Auxiliary lemmas about the session registry operations. -/

theorem SessionManager.hasSession_setDownstreamToken {τ : Type}
    (m : SessionManager τ) (k sid tok : String) :
    (m.setDownstreamToken k tok).hasSession sid = m.hasSession sid := by
  unfold SessionManager.setDownstreamToken SessionManager.hasSession
  cases hg : mapGet m.sessions k with
  | none => rfl
  | some e =>
    by_cases h : k = sid
    · subst h; simp [mapGet_mapSet_self, hg]
    · simp [mapGet_mapSet_ne _ _ _ _ h]

theorem SessionManager.getDownstreamToken_set_self {τ : Type}
    (m : SessionManager τ) (sid tok : String) (h : m.hasSession sid = true) :
    (m.setDownstreamToken sid tok).getDownstreamToken sid = some tok := by
  unfold SessionManager.hasSession at h
  unfold SessionManager.setDownstreamToken SessionManager.getDownstreamToken
  cases hg : mapGet m.sessions sid with
  | none => rw [hg] at h; simp at h
  | some e => simp [mapGet_mapSet_self]

theorem SessionManager.getDownstreamToken_set_ne {τ : Type}
    (m : SessionManager τ) (k sid tok : String) (h : k ≠ sid) :
    (m.setDownstreamToken k tok).getDownstreamToken sid = m.getDownstreamToken sid := by
  unfold SessionManager.setDownstreamToken SessionManager.getDownstreamToken
  cases hg : mapGet m.sessions k with
  | none => rfl
  | some e => simp [mapGet_mapSet_ne _ _ _ _ h]

theorem getDownstreamToken_foldl_set {τ : Type} (sid : String)
    (ops : List (String × String)) :
    ∀ (s : SessionManager τ), s.hasSession sid = true →
      SessionManager.getDownstreamToken
        (ops.foldl (fun acc p => acc.setDownstreamToken p.1 p.2) s) sid
        = (match ops.reverse.find? (fun p => p.1 == sid) with
           | some p => some p.2
           | none => s.getDownstreamToken sid) := by
  induction ops with
  | nil => intro s _; simp
  | cons hd tl ih =>
    intro s hs
    rw [List.foldl_cons]
    have hs2 : (s.setDownstreamToken hd.1 hd.2).hasSession sid = true := by
      rw [SessionManager.hasSession_setDownstreamToken]; exact hs
    rw [ih _ hs2]
    rw [List.reverse_cons, List.find?_append]
    cases hfind : tl.reverse.find? (fun p => p.1 == sid) with
    | some p => simp [hfind]
    | none =>
      by_cases hhd : hd.1 == sid
      · have heq : hd.1 = sid := by simpa using hhd
        simp only [hfind, List.find?, hhd, Option.none_orElse, if_pos]
        rw [heq]
        exact SessionManager.getDownstreamToken_set_self s sid hd.2 hs
      · have hne : hd.1 ≠ sid := by simpa using hhd
        simp [hfind, List.find?, hhd,
          SessionManager.getDownstreamToken_set_ne s hd.1 sid hd.2 hne]

/-! Claims about the session registry. -/

/-- Claim C7: for every session identifier not present in the registry
(never added, or already deleted), `getTransport` returns `undefined`,
`getDownstreamToken` returns `null`, and `deleteSession` and
`setDownstreamToken` are no-ops that leave the registry unchanged (and, as
total Lean functions, cannot throw); `deleteSession` with an
absent/undefined identifier is likewise a no-op. -/
theorem c7_unknown_session_noops {τ : Type} (m : SessionManager τ)
    (sid tok : String) (h : m.hasSession sid = false) :
    m.getTransport sid = none ∧
    m.getDownstreamToken sid = none ∧
    m.deleteSession (some sid) = m ∧
    m.setDownstreamToken sid tok = m ∧
    m.deleteSession none = m := by
  have hg : mapGet m.sessions sid = none := by
    unfold SessionManager.hasSession at h
    cases hget : mapGet m.sessions sid with
    | none => rfl
    | some e => rw [hget] at h; simp at h
  refine ⟨?_, ?_, ?_, ?_, rfl⟩
  · unfold SessionManager.getTransport; rw [hg]; rfl
  · unfold SessionManager.getDownstreamToken; rw [hg]
  · unfold SessionManager.deleteSession
    by_cases he : sid == ""
    · simp [he]
    · simp [he, mapDelete_of_get_none m.sessions sid hg]
  · unfold SessionManager.setDownstreamToken; rw [hg]

/-- Witness for C7 at a concrete registry holding only session `"a"` and the
unknown identifier `"ghost"`. -/
theorem c7_unknown_session_noops_witness :
    (SessionManager.empty.addSession "a" (1 : Nat)).getTransport "ghost" = none ∧
    (SessionManager.empty.addSession "a" (1 : Nat)).getDownstreamToken "ghost" = none ∧
    (SessionManager.empty.addSession "a" (1 : Nat)).deleteSession (some "ghost")
      = SessionManager.empty.addSession "a" (1 : Nat) ∧
    (SessionManager.empty.addSession "a" (1 : Nat)).setDownstreamToken "ghost" "tok"
      = SessionManager.empty.addSession "a" (1 : Nat) ∧
    (SessionManager.empty.addSession "a" (1 : Nat)).deleteSession none
      = SessionManager.empty.addSession "a" (1 : Nat) :=
  c7_unknown_session_noops (SessionManager.empty.addSession "a" (1 : Nat)) "ghost" "tok"
    (by decide)

/-- Claim C8: after `addSession`, the downstream token reads back as `null`
until the first `setDownstreamToken` for that same identifier, and any
sequence of `setDownstreamToken` calls stores a single overwritten value:
the read returns the token of the last call whose identifier matches, i.e.
the first match in the reversed call sequence, and `null` when no call
matched. -/
theorem c8_downstream_token_last_write_wins {τ : Type} (m : SessionManager τ)
    (sid : String) (t : τ) (ops : List (String × String)) :
    SessionManager.getDownstreamToken
      (ops.foldl (fun acc p => acc.setDownstreamToken p.1 p.2) (m.addSession sid t)) sid
      = (ops.reverse.find? (fun p => p.1 == sid)).map (fun p => p.2) := by
  have h1 : (m.addSession sid t).hasSession sid = true := by
    unfold SessionManager.addSession SessionManager.hasSession
    simp [mapGet_mapSet_self]
  have h2 : (m.addSession sid t).getDownstreamToken sid = none := by
    unfold SessionManager.addSession SessionManager.getDownstreamToken
    simp [mapGet_mapSet_self]
  rw [getDownstreamToken_foldl_set sid ops _ h1, h2]
  cases ops.reverse.find? (fun p => p.1 == sid) <;> rfl

/-- Claim C10: re-adding an identifier already present in the registry
replaces the stored entry — `getTransport` then returns the new transport,
`getDownstreamToken` falls back to `null` (a previously cached credential is
silently discarded), and the session count is unchanged. -/
theorem c10_readd_replaces_entry {τ : Type} (m : SessionManager τ)
    (sid : String) (t2 : τ) (h : m.hasSession sid = true) :
    (m.addSession sid t2).getTransport sid = some t2 ∧
    (m.addSession sid t2).getDownstreamToken sid = none ∧
    (m.addSession sid t2).getSessionCount = m.getSessionCount := by
  have hg : ∃ e, mapGet m.sessions sid = some e := by
    unfold SessionManager.hasSession at h
    cases hget : mapGet m.sessions sid with
    | none => rw [hget] at h; simp at h
    | some e => exact ⟨e, rfl⟩
  obtain ⟨e, hg⟩ := hg
  refine ⟨?_, ?_, ?_⟩
  · unfold SessionManager.addSession SessionManager.getTransport
    simp [mapGet_mapSet_self]
  · unfold SessionManager.addSession SessionManager.getDownstreamToken
    simp [mapGet_mapSet_self]
  · unfold SessionManager.addSession SessionManager.getSessionCount
    exact mapSet_length_of_get_some m.sessions sid _ e hg

/-- Witness for C10 at a registry whose session `"s"` has a cached
credential `"old-token"`: the re-add discards it. -/
theorem c10_readd_replaces_entry_witness :
    (((SessionManager.empty.addSession "s" (1 : Nat)).setDownstreamToken "s"
        "old-token").addSession "s" 2).getTransport "s" = some 2 ∧
    (((SessionManager.empty.addSession "s" (1 : Nat)).setDownstreamToken "s"
        "old-token").addSession "s" 2).getDownstreamToken "s" = none ∧
    (((SessionManager.empty.addSession "s" (1 : Nat)).setDownstreamToken "s"
        "old-token").addSession "s" 2).getSessionCount
      = ((SessionManager.empty.addSession "s" (1 : Nat)).setDownstreamToken "s"
          "old-token").getSessionCount :=
  c10_readd_replaces_entry
    ((SessionManager.empty.addSession "s" (1 : Nat)).setDownstreamToken "s" "old-token")
    "s" 2 (by decide)

/-- Claim C3 counterexample: the execution the claim describes — session
`"s"` is deleted from the registry while an exchange for it is in flight,
and the completed exchange then writes back through `setDownstreamToken` —
leaves no orphaned entry at all: the write-back is a silent no-op
(`if (!entry) return;`), the registry is exactly as deletion left it, and
holds no entry keyed by the dead identifier. -/
theorem c3_counterexample :
    ((SessionManager.empty.addSession "s" (1 : Nat)).deleteSession
        (some "s")).setDownstreamToken "s" "exchanged-token"
      = (SessionManager.empty.addSession "s" (1 : Nat)).deleteSession (some "s") ∧
    (((SessionManager.empty.addSession "s" (1 : Nat)).deleteSession
        (some "s")).setDownstreamToken "s" "exchanged-token").hasSession "s" = false ∧
    (((SessionManager.empty.addSession "s" (1 : Nat)).deleteSession
        (some "s")).setDownstreamToken "s" "exchanged-token").getSessionCount = 0 := by
  decide

/-- Claim C3 (amended): when a session is deleted while a credential
exchange started on its behalf is still in flight, the exchange's completed
write-back on the deleted identifier is a silent no-op: the registry equals
what deletion left and contains no entry for that identifier, so no orphaned
entry is leaked. -/
theorem c3_amended_no_leak {τ : Type} (m : SessionManager τ) (sid tok : String)
    (h : sid ≠ "") :
    (m.deleteSession (some sid)).setDownstreamToken sid tok
      = m.deleteSession (some sid) ∧
    ((m.deleteSession (some sid)).setDownstreamToken sid tok).hasSession sid = false := by
  have he : (sid == "") = false := by simpa using h
  have hg : mapGet (m.deleteSession (some sid)).sessions sid = none := by
    unfold SessionManager.deleteSession
    simp [he, mapGet_mapDelete_self]
  have hEq : (m.deleteSession (some sid)).setDownstreamToken sid tok
      = m.deleteSession (some sid) := by
    unfold SessionManager.setDownstreamToken
    rw [hg]
  refine ⟨hEq, ?_⟩
  rw [hEq]
  unfold SessionManager.hasSession
  rw [hg]
  rfl

/-- Witness for the amended C3 at a concrete one-session registry. -/
theorem c3_amended_no_leak_witness :
    ((SessionManager.empty.addSession "s" (2 : Nat)).deleteSession
        (some "s")).setDownstreamToken "s" "tok"
      = (SessionManager.empty.addSession "s" (2 : Nat)).deleteSession (some "s") ∧
    (((SessionManager.empty.addSession "s" (2 : Nat)).deleteSession
        (some "s")).setDownstreamToken "s" "tok").hasSession "s" = false :=
  c3_amended_no_leak (SessionManager.empty.addSession "s" (2 : Nat)) "s" "tok" (by decide)

/-! Claims about the credential validator and the token exchanger. -/

/-- Claim C5: `validateAccessToken` is total (the embedding of its
`try`/`catch` returns a value on every branch, so it never throws), and on
every failure — structurally invalid token or missing algorithm
(`decodeAlg` yields nothing) or any `jwt.verify` rejection (missing key
identifier, key-fetch error, signature mismatch, expiry, wrong issuer or
audience, all surfaced as a verify error) — it returns exactly
`{ valid: false }` with no further fields; since that result is one
constant, the returned value never distinguishes the failure reason. -/
theorem c5_validator_uniform_failure (env : JwtEnv) (token : String)
    (h : env.decodeAlg token = none ∨
         ∃ alg e, env.decodeAlg token = some alg ∧ env.verify token alg = .err e) :
    validateAccessToken env token =
      { valid := false, clientId := none, scopes := none, userId := none,
        audience := none, subjectToken := none } := by
  rcases h with h | ⟨alg, e, h1, h2⟩
  · simp [validateAccessToken, h]
  · simp [validateAccessToken, h1, h2]

/-- Witness for C5: a token whose header decodes to no algorithm. -/
theorem c5_validator_uniform_failure_witness :
    validateAccessToken
        { decodeAlg := fun _ => none, verify := fun _ _ => .err "bad signature" }
        "not-a-jwt"
      = { valid := false, clientId := none, scopes := none, userId := none,
          audience := none, subjectToken := none } :=
  c5_validator_uniform_failure
    { decodeAlg := fun _ => none, verify := fun _ _ => .err "bad signature" }
    "not-a-jwt" (Or.inl rfl)

/-- Claim C6 counterexample: a grant response that does contain an
`access_token` field holding the empty string.  The claim says the function
"returns the access_token string exactly when the grant response contains
one", so it demands the result `some ""` here; the source's falsy test
`if (!response?.access_token)` treats the empty string as absent and
returns `null` instead. -/
theorem c6_counterexample :
    performTokenExchange
        { discovery := .ok, grant := .response (some "") } "subject-token" = none ∧
    performTokenExchange
        { discovery := .ok, grant := .response (some "") } "subject-token" ≠ some "" := by
  constructor <;> decide

/-- Claim C6 (amended): `performTokenExchange` is total (its embedding
returns on every branch — the source catches every exception — so it never
raises to its caller); it returns `null` when discovery fails, when the
grant request fails, and when the grant response carries no truthy
`access_token` (absent or empty string, which the JS falsy test treats as
absent); and it returns the `access_token` string exactly when the response
contains a non-empty one. -/
theorem c6_amended_exchange_boundary (env : ExchangeEnv) (subjectToken : String) :
    (env.discovery = .err → performTokenExchange env subjectToken = none) ∧
    (env.grant = .err → performTokenExchange env subjectToken = none) ∧
    (∀ tok, env.grant = .response tok → strTruthy tok = false →
      performTokenExchange env subjectToken = none) ∧
    (∀ t, env.discovery = .ok → env.grant = .response (some t) → t ≠ "" →
      performTokenExchange env subjectToken = some t) := by
  obtain ⟨d, g⟩ := env
  cases d <;> cases g <;>
    refine ⟨fun h1 => ?_, fun h2 => ?_, fun tok h3 h4 => ?_, fun t h5 h6 h7 => ?_⟩ <;>
    simp_all [performTokenExchange, strTruthy]

/-- Witness for the amended C6: a successful exchange and a failed
discovery. -/
theorem c6_amended_exchange_boundary_witness :
    performTokenExchange
        { discovery := .ok, grant := .response (some "downstream-tok") } "subj"
      = some "downstream-tok" ∧
    performTokenExchange { discovery := .err, grant := .err } "subj" = none :=
  ⟨(c6_amended_exchange_boundary
      { discovery := .ok, grant := .response (some "downstream-tok") } "subj").2.2.2
      "downstream-tok" rfl rfl (by decide),
   (c6_amended_exchange_boundary { discovery := .err, grant := .err } "subj").1 rfl⟩

/-! Claim about configuration validation and feature derivation. -/

theorem validateConfig_ok_iff (c : ServerConfig) :
    validateConfig c = .ok () ↔
      (strTruthy c.BACKEND_API_BASE = true ∧
       (∃ p, c.SERVER_PORT = some p ∧ 1 ≤ p ∧ p ≤ 65535) ∧
       strTruthy c.MCP_SERVER_BASE_URL = strTruthy c.AUTHZ_SERVER_BASE_URL ∧
       strTruthy c.TLS_KEY_PATH = strTruthy c.TLS_CERT_PATH) := by
  unfold validateConfig
  cases hP : c.SERVER_PORT with
  | none => cases hB : strTruthy c.BACKEND_API_BASE <;> simp_all
  | some p =>
    by_cases hr : (p < 1 || p > 65535) = true
    · cases hB : strTruthy c.BACKEND_API_BASE <;> simp_all <;> omega
    · cases hB : strTruthy c.BACKEND_API_BASE <;>
      cases hM : strTruthy c.MCP_SERVER_BASE_URL <;>
      cases hA : strTruthy c.AUTHZ_SERVER_BASE_URL <;>
      cases hK : strTruthy c.TLS_KEY_PATH <;>
      cases hC : strTruthy c.TLS_CERT_PATH <;>
      simp_all <;>
      first
        | omega
        | (rw [if_neg (by omega)]; simp)

/-- Claim C9: a configuration in which exactly one field of a paired
feature is (truthily) present — one of `MCP_SERVER_BASE_URL` /
`AUTHZ_SERVER_BASE_URL`, or one of `TLS_KEY_PATH` / `TLS_CERT_PATH` —
makes `validateConfig` raise a `ConfigValidationError` (an `.error`
result); when both fields of each pair are present or both absent and the
required `BACKEND_API_BASE` and `SERVER_PORT` are valid, `validateConfig`
raises nothing; and `deriveConfig` enables each feature exactly when both
fields of its pair are set. -/
theorem c9_paired_config_features (c : ServerConfig) :
    ((strTruthy c.MCP_SERVER_BASE_URL ≠ strTruthy c.AUTHZ_SERVER_BASE_URL ∨
      strTruthy c.TLS_KEY_PATH ≠ strTruthy c.TLS_CERT_PATH) →
        ∃ msg, validateConfig c = .error msg) ∧
    (strTruthy c.BACKEND_API_BASE = true →
     (∃ p, c.SERVER_PORT = some p ∧ 1 ≤ p ∧ p ≤ 65535) →
     strTruthy c.MCP_SERVER_BASE_URL = strTruthy c.AUTHZ_SERVER_BASE_URL →
     strTruthy c.TLS_KEY_PATH = strTruthy c.TLS_CERT_PATH →
        validateConfig c = .ok ()) ∧
    (deriveConfig c).enableAuth =
      (strTruthy c.MCP_SERVER_BASE_URL && strTruthy c.AUTHZ_SERVER_BASE_URL) ∧
    (deriveConfig c).enableHttps =
      (strTruthy c.TLS_KEY_PATH && strTruthy c.TLS_CERT_PATH) := by
  refine ⟨?_, ?_, rfl, rfl⟩
  · intro h
    cases hv : validateConfig c with
    | error e => exact ⟨e, rfl⟩
    | ok u =>
      cases u
      rw [validateConfig_ok_iff] at hv
      rcases h with h | h
      · exact absurd hv.2.2.1 h
      · exact absurd hv.2.2.2 h
  · intro hB hport hpair htls
    rw [validateConfig_ok_iff]
    exact ⟨hB, hport, hpair, htls⟩

/-- Witness for C9: a configuration with only `MCP_SERVER_BASE_URL` of the
OAuth pair set is rejected, and a minimal valid configuration with both
pairs absent passes. -/
theorem c9_paired_config_features_witness :
    (∃ msg, validateConfig
        { BACKEND_API_BASE := some "https://backend.example.com",
          SERVER_PORT := some 3000,
          MCP_SERVER_BASE_URL := some "https://mcp.example.com" } = .error msg) ∧
    validateConfig
        { BACKEND_API_BASE := some "https://backend.example.com",
          SERVER_PORT := some 3000 } = .ok () :=
  ⟨(c9_paired_config_features
      { BACKEND_API_BASE := some "https://backend.example.com",
        SERVER_PORT := some 3000,
        MCP_SERVER_BASE_URL := some "https://mcp.example.com" }).1
      (Or.inl (by decide)),
   (c9_paired_config_features
      { BACKEND_API_BASE := some "https://backend.example.com",
        SERVER_PORT := some 3000 }).2.1 (by decide)
      ⟨3000, rfl, by decide, by decide⟩ (by decide) (by decide)⟩

/-! Claims about the MCP request dispatcher. -/

/-- Claim C4: every POST request that neither carries a session identifier
known to the registry nor is a session-identifier-free initialization
request is answered with the HTTP 400 JSON-RPC envelope (`jsonrpc "2.0"`,
code `-32000`, message `Bad Request: No valid session ID provided`,
`id: null`), the handler terminates there, the registry is returned
unchanged, no transport is created, and the auth context is untouched. -/
theorem c4_invalid_request_rejected (cfg : HandlerConfig) (freshTransport : Nat)
    (toolLoad : ToolLoadOutcome) (req : McpRequest) (sm : SessionManager Nat)
    (hUnknown : ∀ s, jsSid req.sessionId = some s → sm.getTransport s = none)
    (hNotInit : jsSid req.sessionId = none → req.isInit = false) :
    handleMcpPost cfg freshTransport toolLoad req sm =
      .ok { response := .jsonError 400
              { jsonrpc := "2.0", code := -32000,
                message := "Bad Request: No valid session ID provided", idIsNull := true },
            sm := sm, auth := req.auth, exchangeCalled := false,
            createdTransport := none } := by
  unfold handleMcpPost
  cases hsid : jsSid req.sessionId with
  | none =>
    have hinit : req.isInit = false := hNotInit hsid
    simp [hsid, hinit]
  | some s =>
    have hT : sm.getTransport s = none := hUnknown s hsid
    simp [hsid, hT]

/-- Witness for C4: an unknown session identifier on an empty registry,
even with an initialization body, yields the 400 envelope and no side
effects. -/
theorem c4_invalid_request_rejected_witness :
    handleMcpPost
      { enableAuth := false, performTokenExchange := none,
        hasTokenExchangeConfig := false, getBackendAccessToken := none }
      7 .ok
      { sessionId := some "unknown-id", isInit := true, auth := none }
      SessionManager.empty
      = .ok { response := .jsonError 400
                { jsonrpc := "2.0", code := -32000,
                  message := "Bad Request: No valid session ID provided", idIsNull := true },
              sm := SessionManager.empty, auth := none, exchangeCalled := false,
              createdTransport := none } :=
  c4_invalid_request_rejected
    { enableAuth := false, performTokenExchange := none,
      hasTokenExchangeConfig := false, getBackendAccessToken := none }
    7 .ok
    { sessionId := some "unknown-id", isInit := true, auth := none }
    SessionManager.empty
    (fun s hs => by
      simp [jsSid] at hs
      subst hs
      rfl)
    (fun hn => by simp [jsSid] at hn)

/-- Claim C2 counterexample: a new-session (state 2) initializing request —
no session identifier, initialization body, a valid auth context with a
subject token, authentication enabled, and an exchange configured that
would succeed — is routed and delegated, yet the resolution step does not
run: the injected exchange function is never invoked and the auth context's
downstream token stays `null`, because the resolution block is guarded by
`if (sessionId && authReq.auth.valid)` and the initializing request carries
no session identifier. -/
theorem c2_counterexample :
    (handleMcpPost
        { enableAuth := true,
          performTokenExchange := some (fun _ => some "exchanged-token"),
          hasTokenExchangeConfig := true,
          getBackendAccessToken := some "static-token" }
        7 .ok
        { sessionId := none, isInit := true,
          auth := some { valid := true, subjectToken := some "subject-token" } }
        SessionManager.empty).map
      (fun o => (o.response, o.exchangeCalled, o.auth.map (fun a => a.downstreamToken)))
      = .ok (.delegated 7, false, some none) := by
  rfl

/-- Claim C2 (amended): for every routed POST request the dispatcher
attaches an auth context (synthesizing one when absent) before invoking the
transport's `handleRequest`, but the downstream-credential resolution runs
only when the request carries a truthy session identifier and the auth
context is valid: on the new-session path (state 2) no resolution occurs —
the exchange is not invoked, the registry is untouched and the context's
downstream token is left as-is — while on the reuse path (state 1) with a
valid context a cached credential is resolved and attached. -/
theorem c2_amended_resolution_only_with_session (cfg : HandlerConfig)
    (freshTransport : Nat) (req : McpRequest) (sm : SessionManager Nat) :
    (jsSid req.sessionId = none → req.isInit = true →
      handleMcpPost cfg freshTransport .ok req sm =
        .ok { response := .delegated freshTransport, sm := sm,
              auth := some (ensureAuth cfg.enableAuth req.auth),
              exchangeCalled := false, createdTransport := some freshTransport }) ∧
    (∀ s t, jsSid req.sessionId = some s → sm.getTransport s = some t →
      (ensureAuth cfg.enableAuth req.auth).valid = true →
      strTruthy (sm.getDownstreamToken s) = true →
      handleMcpPost cfg freshTransport .ok req sm =
        .ok { response := .delegated t, sm := sm,
              auth := some { ensureAuth cfg.enableAuth req.auth with
                               downstreamToken := sm.getDownstreamToken s },
              exchangeCalled := false, createdTransport := none }) := by
  constructor
  · intro h1 h2
    unfold handleMcpPost resolveDownstream
    simp [h1, h2]
  · intro s t hs ht hvalid hcache
    unfold handleMcpPost resolveDownstream
    simp [hs, ht, hvalid, hcache]

/-- Witness for the amended C2: a concrete initializing request (auth
disabled) and a concrete reuse request with a cached credential. -/
theorem c2_amended_resolution_only_with_session_witness :
    handleMcpPost
        { enableAuth := false, performTokenExchange := none,
          hasTokenExchangeConfig := false, getBackendAccessToken := none }
        9 .ok { sessionId := none, isInit := true, auth := none }
        SessionManager.empty
      = .ok { response := .delegated 9, sm := SessionManager.empty,
              auth := some (ensureAuth false none),
              exchangeCalled := false, createdTransport := some 9 } ∧
    handleMcpPost
        { enableAuth := false, performTokenExchange := none,
          hasTokenExchangeConfig := false, getBackendAccessToken := none }
        9 .ok
        { sessionId := some "live", isInit := false, auth := some { valid := true } }
        ((SessionManager.empty.addSession "live" (3 : Nat)).setDownstreamToken "live"
          "cached-tok")
      = .ok { response := .delegated 3,
              sm := (SessionManager.empty.addSession "live" (3 : Nat)).setDownstreamToken
                      "live" "cached-tok",
              auth := some { ensureAuth false (some { valid := true }) with
                               downstreamToken :=
                                 ((SessionManager.empty.addSession "live"
                                     (3 : Nat)).setDownstreamToken "live"
                                   "cached-tok").getDownstreamToken "live" },
              exchangeCalled := false, createdTransport := none } :=
  ⟨(c2_amended_resolution_only_with_session
      { enableAuth := false, performTokenExchange := none,
        hasTokenExchangeConfig := false, getBackendAccessToken := none }
      9 { sessionId := none, isInit := true, auth := none }
      SessionManager.empty).1 rfl rfl,
   (c2_amended_resolution_only_with_session
      { enableAuth := false, performTokenExchange := none,
        hasTokenExchangeConfig := false, getBackendAccessToken := none }
      9 { sessionId := some "live", isInit := false, auth := some { valid := true } }
      ((SessionManager.empty.addSession "live" (3 : Nat)).setDownstreamToken "live"
        "cached-tok")).2 "live" 3 (by decide) (by decide) rfl (by decide)⟩

/-- Claim C1 counterexample: a request on the existing session `"s"` with no
cached credential, authentication enabled and an exchange configured that
returns `null`, with static fallback token `"static-token"` configured.
The dispatcher obtains the static fallback and attaches it to the request
context, but the registry's slot for `"s"` still reads back `null`: the
fallback credential is not cached, so a subsequent call cannot find it via
`getDownstreamToken`. -/
theorem c1_counterexample :
    (handleMcpPost
        { enableAuth := true,
          performTokenExchange := some (fun _ => none),
          hasTokenExchangeConfig := true,
          getBackendAccessToken := some "static-token" }
        7 .ok
        { sessionId := some "s", isInit := false,
          auth := some { valid := true, subjectToken := some "subject-token" } }
        (SessionManager.empty.addSession "s" (1 : Nat))).map
      (fun o => (o.auth.map (fun a => a.downstreamToken),
                 o.sm.getDownstreamToken "s", o.exchangeCalled))
      = .ok (some (some "static-token"), none, true) := by
  rfl

/-- Claim C1 (amended): on a request for an existing session with no cached
downstream credential, a credential obtained from a successful token
exchange is both attached to the request context and cached in the registry
against the session identifier; a credential obtained from the static
backend fallback is attached to the request context only — the registry is
left unchanged, so subsequent calls re-read the fallback from configuration
instead of finding it via `getDownstreamToken`. -/
theorem c1_amended_only_exchange_result_cached (cfg : HandlerConfig)
    (freshTransport : Nat) (req : McpRequest) (sm : SessionManager Nat)
    (s : String) (t : Nat)
    (hSid : jsSid req.sessionId = some s)
    (hT : sm.getTransport s = some t)
    (hValid : (ensureAuth cfg.enableAuth req.auth).valid = true)
    (hNoCache : strTruthy (sm.getDownstreamToken s) = false)
    (hEA : cfg.enableAuth = true)
    (hTEC : cfg.hasTokenExchangeConfig = true) :
    (∀ f subj tok, cfg.performTokenExchange = some f →
      (ensureAuth cfg.enableAuth req.auth).subjectToken = some subj → subj ≠ "" →
      f subj = some tok → tok ≠ "" →
      handleMcpPost cfg freshTransport .ok req sm =
        .ok { response := .delegated t,
              sm := sm.setDownstreamToken s tok,
              auth := some { ensureAuth cfg.enableAuth req.auth with
                               downstreamToken := some tok },
              exchangeCalled := true, createdTransport := none }) ∧
    (∀ f subj st, cfg.performTokenExchange = some f →
      (ensureAuth cfg.enableAuth req.auth).subjectToken = some subj → subj ≠ "" →
      strTruthy (f subj) = false →
      cfg.getBackendAccessToken = some st → st ≠ "" →
      handleMcpPost cfg freshTransport .ok req sm =
        .ok { response := .delegated t,
              sm := sm,
              auth := some { ensureAuth cfg.enableAuth req.auth with
                               downstreamToken := some st },
              exchangeCalled := true, createdTransport := none }) := by
  constructor
  · intro f subj tok hf hsub hsubne hres htokne
    have hValid2 : (ensureAuth true req.auth).valid = true := hEA ▸ hValid
    have hsub2 : (ensureAuth true req.auth).subjectToken = some subj := hEA ▸ hsub
    have htok2 : strTruthy (some tok) = true := by simp [strTruthy, htokne]
    unfold handleMcpPost resolveDownstream
    simp [hSid, hT, hNoCache, hEA, hTEC, hf, hValid2, hsub2, hsubne, hres, htok2]
  · intro f subj st hf hsub hsubne hres hst hstne
    have hValid2 : (ensureAuth true req.auth).valid = true := hEA ▸ hValid
    have hsub2 : (ensureAuth true req.auth).subjectToken = some subj := hEA ▸ hsub
    have hst2 : strTruthy (some st) = true := by simp [strTruthy, hstne]
    unfold handleMcpPost resolveDownstream
    simp [hSid, hT, hNoCache, hEA, hTEC, hf, hValid2, hsub2, hsubne, hres, hst, hst2,
      hstne]

/-- Witness for the amended C1: on session `"s"` with no cached credential,
a successful exchange caches `"exchanged-token"`, while a failed exchange
with the static fallback `"static-token"` attaches it without caching. -/
theorem c1_amended_only_exchange_result_cached_witness :
    handleMcpPost
        { enableAuth := true,
          performTokenExchange := some (fun _ => some "exchanged-token"),
          hasTokenExchangeConfig := true, getBackendAccessToken := none }
        7 .ok
        { sessionId := some "s", isInit := false,
          auth := some { valid := true, subjectToken := some "subject-token" } }
        (SessionManager.empty.addSession "s" (1 : Nat))
      = .ok { response := .delegated 1,
              sm := (SessionManager.empty.addSession "s" (1 : Nat)).setDownstreamToken
                      "s" "exchanged-token",
              auth := some { valid := true, subjectToken := some "subject-token",
                             downstreamToken := some "exchanged-token" },
              exchangeCalled := true, createdTransport := none } ∧
    handleMcpPost
        { enableAuth := true,
          performTokenExchange := some (fun _ => none),
          hasTokenExchangeConfig := true,
          getBackendAccessToken := some "static-token" }
        7 .ok
        { sessionId := some "s", isInit := false,
          auth := some { valid := true, subjectToken := some "subject-token" } }
        (SessionManager.empty.addSession "s" (1 : Nat))
      = .ok { response := .delegated 1,
              sm := SessionManager.empty.addSession "s" (1 : Nat),
              auth := some { valid := true, subjectToken := some "subject-token",
                             downstreamToken := some "static-token" },
              exchangeCalled := true, createdTransport := none } :=
  ⟨(c1_amended_only_exchange_result_cached
      { enableAuth := true,
        performTokenExchange := some (fun _ => some "exchanged-token"),
        hasTokenExchangeConfig := true, getBackendAccessToken := none }
      7
      { sessionId := some "s", isInit := false,
        auth := some { valid := true, subjectToken := some "subject-token" } }
      (SessionManager.empty.addSession "s" (1 : Nat)) "s" 1
      (by decide) (by decide) rfl (by decide) rfl rfl).1
      (fun _ => some "exchanged-token") "subject-token" "exchanged-token"
      rfl rfl (by decide) rfl (by decide),
   (c1_amended_only_exchange_result_cached
      { enableAuth := true,
        performTokenExchange := some (fun _ => none),
        hasTokenExchangeConfig := true,
        getBackendAccessToken := some "static-token" }
      7
      { sessionId := some "s", isInit := false,
        auth := some { valid := true, subjectToken := some "subject-token" } }
      (SessionManager.empty.addSession "s" (1 : Nat)) "s" 1
      (by decide) (by decide) rfl (by decide) rfl rfl).2
      (fun _ => none) "subject-token" "static-token"
      rfl rfl (by decide) rfl rfl (by decide)⟩
